import Mathlib

/-!
Verification of the comparative-analytics core of `seo_analyzer_streamlit.py`.

The embedding models the pandas pipeline over explicit lists of records:
- `gsc_to_dataframe` / `ga4_to_dataframe` build record lists from API rows;
- `current_summary` / `comparison_summary` model `df.groupby('query').agg(...)`;
- `merge_outer` models `pd.merge(..., on='query', how='outer').fillna(0)`;
- `calculate_change_rate`, `is_significant`, `analyze_trends`,
  `analyze_conversion`, `analyze_search_intent` follow the source line by line.

Floats are modelled as rationals (every constant involved is exactly
representable and no rounding occurs in the claims under study); the
dynamically typed change-rate column (float or the string sentinel) is the
tagged type `ChangeRate`; the `page` column after `fillna(0)` is the tagged
type `CellValue`, since pandas fills a missing string cell with numeric `0`.
-/

/-- One row of `current_df` / `comparison_df` as built by `gsc_to_dataframe`:
`query`, `page`, `clicks`, `impressions`, `ctr`, `position`. -/
structure SearchRecord where
  query : String
  page : String
  clicks : ℚ
  impressions : ℚ
  ctr : ℚ
  position : ℚ
deriving DecidableEq

/-- `pd.DataFrame(data)` infers its columns from the given records, so an empty
record list yields a frame with an empty column index.  The column list is the
only schema information the claims need. -/
structure GscFrame where
  columns : List String
  rows : List SearchRecord
deriving DecidableEq

/-- `gsc_to_dataframe`: converts the GSC response rows to a data frame.  For a
nonempty row list the frame has the six columns appended in the source's loop;
for an empty list `pd.DataFrame([])` has no columns at all. -/
def gsc_to_dataframe (responseRows : List SearchRecord) : GscFrame :=
  { columns := if responseRows.isEmpty then []
      else ["query", "page", "clicks", "impressions", "ctr", "position"]
    rows := responseRows }

/-- `df.groupby('query')` groups rows by query.  Each group is represented by
its first record (pandas `'first'` aggregation and the source of `page`)
together with the full list of its records in encounter order. -/
def queryGroups : List SearchRecord → List (SearchRecord × List SearchRecord)
  | [] => []
  | r :: rs =>
      (r, r :: rs.filter (fun s => s.query == r.query)) ::
        queryGroups (rs.filter (fun s => !(s.query == r.query)))
termination_by l => l.length
decreasing_by
  simp only [List.length_cons]
  exact Nat.lt_succ_of_le (List.length_filter_le _ _)

/-- One row of `current_summary`: `groupby('query').agg` with
`clicks: sum, impressions: sum, ctr: mean, position: mean, page: first`. -/
structure QuerySummary where
  query : String
  clicks : ℚ
  impressions : ℚ
  ctr : ℚ
  position : ℚ
  page : String
deriving DecidableEq

/-- One row of `comparison_summary`: same aggregation without the `page`
column. -/
structure ComparisonSummary where
  query : String
  clicks : ℚ
  impressions : ℚ
  ctr : ℚ
  position : ℚ
deriving DecidableEq

/-- Aggregation of one query group: sums for `clicks` and `impressions`,
unweighted arithmetic means for `ctr` and `position`, `page` from the first
record of the group. -/
def summarizeGroup (g : SearchRecord × List SearchRecord) : QuerySummary :=
  { query := g.1.query
    clicks := (g.2.map (·.clicks)).sum
    impressions := (g.2.map (·.impressions)).sum
    ctr := (g.2.map (·.ctr)).sum / (g.2.length : ℚ)
    position := (g.2.map (·.position)).sum / (g.2.length : ℚ)
    page := g.1.page }

/-- Aggregation of one query group for the comparison period (no `page`). -/
def summarizeGroupComparison (g : SearchRecord × List SearchRecord) : ComparisonSummary :=
  { query := g.1.query
    clicks := (g.2.map (·.clicks)).sum
    impressions := (g.2.map (·.impressions)).sum
    ctr := (g.2.map (·.ctr)).sum / (g.2.length : ℚ)
    position := (g.2.map (·.position)).sum / (g.2.length : ℚ) }

/-- `current_summary = current_df.groupby('query').agg({...}).reset_index()`. -/
def current_summary (current_df : List SearchRecord) : List QuerySummary :=
  (queryGroups current_df).map summarizeGroup

/-- `comparison_summary = comparison_df.groupby('query').agg({...}).reset_index()`. -/
def comparison_summary (comparison_df : List SearchRecord) : List ComparisonSummary :=
  (queryGroups comparison_df).map summarizeGroupComparison

/-- `df.groupby('query')` raises `KeyError: 'query'` when the frame has no
`query` column — which is exactly the state `pd.DataFrame([])` is in. -/
def groupby_query_on_frame (df : GscFrame) : Except String (List QuerySummary) :=
  if "query" ∈ df.columns then Except.ok (current_summary df.rows)
  else Except.error "KeyError: query"

/-- A cell of the dynamically typed `page` column after the outer merge and
`fillna(0)`: a string from the current side, or the numeric `0` fill. -/
inductive CellValue where
  | str (s : String)
  | num (q : ℚ)
deriving DecidableEq

/-- One row of `merged`: the outer join of `current_summary` and
`comparison_summary` on `query` with suffixes `_current` / `_comparison`,
after `fillna(0)`. -/
structure MergedRow where
  query : String
  clicks_current : ℚ
  impressions_current : ℚ
  ctr_current : ℚ
  position_current : ℚ
  page : CellValue
  clicks_comparison : ℚ
  impressions_comparison : ℚ
  ctr_comparison : ℚ
  position_comparison : ℚ
deriving DecidableEq

/-- The merged row of a current-side summary: comparison fields come from the
matching comparison summary, or are the `fillna(0)` default when the query is
absent on the comparison side. -/
def mergeRowOfCurrent (ps : List ComparisonSummary) (c : QuerySummary) : MergedRow :=
  match ps.find? (fun p => p.query == c.query) with
  | some p =>
      { query := c.query
        clicks_current := c.clicks
        impressions_current := c.impressions
        ctr_current := c.ctr
        position_current := c.position
        page := CellValue.str c.page
        clicks_comparison := p.clicks
        impressions_comparison := p.impressions
        ctr_comparison := p.ctr
        position_comparison := p.position }
  | none =>
      { query := c.query
        clicks_current := c.clicks
        impressions_current := c.impressions
        ctr_current := c.ctr
        position_current := c.position
        page := CellValue.str c.page
        clicks_comparison := 0
        impressions_comparison := 0
        ctr_comparison := 0
        position_comparison := 0 }

/-- The merged row of a comparison-only query: every current-side field is the
`fillna(0)` default, including the string-typed `page` cell, which pandas
fills with the numeric `0`. -/
def mergeRowOfComparisonOnly (p : ComparisonSummary) : MergedRow :=
  { query := p.query
    clicks_current := 0
    impressions_current := 0
    ctr_current := 0
    position_current := 0
    page := CellValue.num 0
    clicks_comparison := p.clicks
    impressions_comparison := p.impressions
    ctr_comparison := p.ctr
    position_comparison := p.position }

/-- `pd.merge(current_summary, comparison_summary, on='query',
suffixes=('_current', '_comparison'), how='outer').fillna(0)`: one row per
current summary (matched against the comparison side) followed by one row per
comparison-only query. -/
def merge_outer (cs : List QuerySummary) (ps : List ComparisonSummary) : List MergedRow :=
  cs.map (mergeRowOfCurrent ps) ++
    (ps.filter (fun p => !(cs.any (fun c => c.query == p.query)))).map mergeRowOfComparisonOnly

/-- `merged['clicks_change'] = merged['clicks_current'] - merged['clicks_comparison']`. -/
def clicks_change (m : MergedRow) : ℚ :=
  m.clicks_current - m.clicks_comparison

/-- The dynamically typed change-rate cell: a float, or the `"新規"` ("NEW")
string sentinel. -/
inductive ChangeRate where
  | new
  | num (r : ℚ)
deriving DecidableEq

/-- `calculate_change_rate` (source lines 388-395): returns the `"新規"`
sentinel when the comparison clicks are `0` and the current clicks are
positive, the number `0` when both are `0`, and otherwise
`clicks_change / clicks_comparison * 100`. -/
def calculate_change_rate (m : MergedRow) : ChangeRate :=
  if m.clicks_comparison = 0 then
    if m.clicks_current > 0 then ChangeRate.new else ChangeRate.num 0
  else ChangeRate.num (clicks_change m / m.clicks_comparison * 100)

/-- `is_significant` (source lines 400-404): a `"新規"` row is significant when
its current clicks reach `min_clicks`; a numeric row additionally needs
`abs(rate) >= change_threshold`.  (In Python the `==` comparison between the
float rate and the string sentinel is simply `False`, so the two branches
partition the rows exactly by the tag.) -/
def is_significant (change_threshold min_clicks : ℚ) (m : MergedRow) : Bool :=
  match calculate_change_rate m with
  | ChangeRate.new => decide (m.clicks_current ≥ min_clicks)
  | ChangeRate.num r => decide (|r| ≥ change_threshold) && decide (m.clicks_current ≥ min_clicks)

/-- The merged table of `analyze_trends` before filtering. -/
def merged_rows (current_df comparison_df : List SearchRecord) : List MergedRow :=
  merge_outer (current_summary current_df) (comparison_summary comparison_df)

/-- `analyze_trends` (source lines 360-406, defaults `change_threshold=50`,
`min_clicks=5`): the significant merged rows sorted by `clicks_change`
descending.  `DataFrame.sort_values` is modelled by a merge sort; note that
the source leaves `kind` at its default `'quicksort'`, which pandas documents
as unstable, so the tie order of the real output is unspecified while this
model's tie order is the join order. -/
def analyze_trends (current_df comparison_df : List SearchRecord)
    (change_threshold min_clicks : ℚ) : List MergedRow :=
  ((merged_rows current_df comparison_df).filter
      (is_significant change_threshold min_clicks)).mergeSort
    (fun a b => decide (clicks_change a ≥ clicks_change b))

/-- `df.groupby(['query', 'page'])` for `analyze_search_intent`: groups keyed
by the query-page pair, in encounter order, each represented by its first
record and its full record list. -/
def queryPageGroups : List SearchRecord → List (SearchRecord × List SearchRecord)
  | [] => []
  | r :: rs =>
      (r, r :: rs.filter (fun s => s.query == r.query && s.page == r.page)) ::
        queryPageGroups (rs.filter (fun s => !(s.query == r.query && s.page == r.page)))
termination_by l => l.length
decreasing_by
  simp only [List.length_cons]
  exact Nat.lt_succ_of_le (List.length_filter_le _ _)

/-- One row of `page_summary` in `analyze_search_intent`: per `(query, page)`
group, `clicks`/`impressions` summed and `ctr`/`position` averaged. -/
structure PageSummary where
  query : String
  page : String
  clicks : ℚ
  impressions : ℚ
  ctr : ℚ
  position : ℚ
deriving DecidableEq

/-- Aggregation of one `(query, page)` group. -/
def summarizeGroupPage (g : SearchRecord × List SearchRecord) : PageSummary :=
  { query := g.1.query
    page := g.1.page
    clicks := (g.2.map (·.clicks)).sum
    impressions := (g.2.map (·.impressions)).sum
    ctr := (g.2.map (·.ctr)).sum / (g.2.length : ℚ)
    position := (g.2.map (·.position)).sum / (g.2.length : ℚ) }

/-- `page_summary = current_df.groupby(['query','page']).agg({...}).reset_index()`. -/
def page_summary (current_df : List SearchRecord) : List PageSummary :=
  (queryPageGroups current_df).map summarizeGroupPage

/-- `analyze_search_intent` (source lines 471-499, defaults
`ctr_threshold=0.05`, `min_impressions=100`): keep the `(query, page)` groups
with `impressions >= min_impressions` and raw `ctr < ctr_threshold`, sort by
`impressions` descending, and only then rescale the `ctr` column by `* 100`. -/
def analyze_search_intent (current_df : List SearchRecord)
    (ctr_threshold min_impressions : ℚ) : List PageSummary :=
  (((page_summary current_df).filter
        (fun r => decide (r.impressions ≥ min_impressions) && decide (r.ctr < ctr_threshold))).mergeSort
      (fun a b => decide (a.impressions ≥ b.impressions))).map
    (fun r => { r with ctr := r.ctr * 100 })

/-- One GA4 API response row, already split into its dimension and metric
values (source lines 337-344). -/
structure Ga4Row where
  page_path : String
  source_medium : String
  sessions : ℤ
  users : ℤ
  bounce_rate : ℚ
  avg_duration : ℚ
  conversions : ℤ
deriving DecidableEq

/-- One row of `ga4_df`: the GA4 row plus the derived `cvr` column. -/
structure AnalyticsRecord where
  page_path : String
  source_medium : String
  sessions : ℤ
  users : ℤ
  bounce_rate : ℚ
  avg_duration : ℚ
  conversions : ℤ
  cvr : ℚ
deriving DecidableEq

/-- Substring test on character lists: the pattern occurs at some position. -/
def charsContain (pat : List Char) : List Char → Bool
  | [] => pat.isEmpty
  | c :: t => pat.isPrefixOf (c :: t) || charsContain pat t

/-- Python's `pat in s` substring test. -/
def strContains (s pat : String) : Bool :=
  charsContain pat.data s.data

/-- Python's `str.lower()`, as a character map (the strings compared by the
source are ASCII, where the two notions of lowercasing agree). -/
def strToLower (s : String) : String :=
  String.mk (s.data.map Char.toLower)

/-- `ga4_to_dataframe` (source lines 332-358): keep only rows whose
`source_medium` contains `"organic"` case-insensitively, and attach
`cvr = conversions / sessions if sessions > 0 else 0`. -/
def ga4_to_dataframe (responseRows : List Ga4Row) : List AnalyticsRecord :=
  (responseRows.filter (fun r => strContains (strToLower r.source_medium) "organic")).map
    (fun r =>
      { page_path := r.page_path
        source_medium := r.source_medium
        sessions := r.sessions
        users := r.users
        bounce_rate := r.bounce_rate
        avg_duration := r.avg_duration
        conversions := r.conversions
        cvr := if (0 : ℤ) < r.sessions then (r.conversions : ℚ) / (r.sessions : ℚ) else 0 })

/-- `analyze_conversion` (source lines 449-455): empty input yields an empty
result; otherwise keep the records with `sessions >= 10` and sort by `cvr`
descending. -/
def analyze_conversion (ga4_df : List AnalyticsRecord) : List AnalyticsRecord :=
  if ga4_df.isEmpty then []
  else (ga4_df.filter (fun r => decide (r.sessions ≥ (10 : ℤ)))).mergeSort
    (fun a b => decide (a.cvr ≥ b.cvr))

/-! ## General lemmas about the grouping and merging steps -/

theorem sum_filter_split {α : Type} (f : α → ℚ) (p : α → Bool) (l : List α) :
    ((l.filter p).map f).sum + ((l.filter (fun s => !(p s))).map f).sum = (l.map f).sum := by
  induction l with
  | nil => simp
  | cons a t ih =>
    by_cases h : p a <;> simp [List.filter_cons, h, ← ih] <;> ring

theorem queryGroups_sum (f : SearchRecord → ℚ) (l : List SearchRecord) :
    ((queryGroups l).map (fun g => (g.2.map f).sum)).sum = (l.map f).sum := by
  induction l using queryGroups.induct with
  | case1 => simp [queryGroups]
  | case2 r rs ih =>
    rw [queryGroups]
    simp only [List.map_cons, List.sum_cons, ih]
    rw [← sum_filter_split f (fun s => s.query == r.query) rs]
    ring

theorem mergeRowOfCurrent_clicks_current (ps : List ComparisonSummary) (c : QuerySummary) :
    (mergeRowOfCurrent ps c).clicks_current = c.clicks := by
  rw [mergeRowOfCurrent]
  rcases h : ps.find? (fun p => p.query == c.query) with _ | p <;> rw [h]

theorem mergeRowOfCurrent_query (ps : List ComparisonSummary) (c : QuerySummary) :
    (mergeRowOfCurrent ps c).query = c.query := by
  rw [mergeRowOfCurrent]
  rcases h : ps.find? (fun p => p.query == c.query) with _ | p <;> rw [h]

theorem mergeRowOfCurrent_page (ps : List ComparisonSummary) (c : QuerySummary) :
    (mergeRowOfCurrent ps c).page = CellValue.str c.page := by
  rw [mergeRowOfCurrent]
  rcases h : ps.find? (fun p => p.query == c.query) with _ | p <;> rw [h]

theorem mergeRowOfCurrent_comparison_fields (ps : List ComparisonSummary) (c : QuerySummary)
    (h : c.query ∉ ps.map ComparisonSummary.query) :
    (mergeRowOfCurrent ps c).clicks_comparison = 0 ∧
      (mergeRowOfCurrent ps c).impressions_comparison = 0 ∧
      (mergeRowOfCurrent ps c).ctr_comparison = 0 ∧
      (mergeRowOfCurrent ps c).position_comparison = 0 := by
  have hf : ps.find? (fun p => p.query == c.query) = none := by
    rw [List.find?_eq_none]
    intro p hp
    simp only [beq_iff_eq]
    intro hq
    exact h (hq ▸ List.mem_map_of_mem ComparisonSummary.query hp)
  rw [mergeRowOfCurrent, hf]
  exact ⟨rfl, rfl, rfl, rfl⟩

theorem mergeRowOfCurrent_comparison_fields_of_match (ps : List ComparisonSummary)
    (c : QuerySummary) (p : ComparisonSummary)
    (h : ps.find? (fun p => p.query == c.query) = some p) :
    (mergeRowOfCurrent ps c).clicks_comparison = p.clicks ∧
      (mergeRowOfCurrent ps c).impressions_comparison = p.impressions ∧
      (mergeRowOfCurrent ps c).ctr_comparison = p.ctr ∧
      (mergeRowOfCurrent ps c).position_comparison = p.position := by
  rw [mergeRowOfCurrent, h]
  exact ⟨rfl, rfl, rfl, rfl⟩

/-! ## C6: conservation of current-period clicks through the pipeline -/

/-- C6: for every pair of raw record sets, the sum of the `clicks_current`
column over the merged (outer-joined) rows equals the sum of `clicks` over the
raw current-period records: the `groupby('query')` aggregation is lossless on
the summed fields and the outer join adds only zero-filled rows on the
current side. -/
theorem merged_current_clicks_conservation (current_df comparison_df : List SearchRecord) :
    ((merged_rows current_df comparison_df).map (·.clicks_current)).sum
      = (current_df.map (·.clicks)).sum := by
  rw [merged_rows, merge_outer]
  rw [List.map_append, List.sum_append]
  have h2 : (((comparison_summary comparison_df).filter
      (fun p => !((current_summary current_df).any (fun c => c.query == p.query)))).map
        mergeRowOfComparisonOnly).map (·.clicks_current) =
      (((comparison_summary comparison_df).filter
      (fun p => !((current_summary current_df).any (fun c => c.query == p.query)))).map
        (fun _ => (0 : ℚ))) := by
    rw [List.map_map]
    apply List.map_congr_left
    intro p _
    rfl
  rw [h2]
  have h3 : ∀ l : List ComparisonSummary, (l.map (fun _ => (0 : ℚ))).sum = 0 := by
    intro l
    induction l with
    | nil => rfl
    | cons a t ih => simp [ih]
  rw [h3, add_zero]
  have h1 : ((current_summary current_df).map (mergeRowOfCurrent (comparison_summary comparison_df))).map
      (·.clicks_current) = (current_summary current_df).map (·.clicks) := by
    rw [List.map_map]
    apply List.map_congr_left
    intro c _
    exact mergeRowOfCurrent_clicks_current _ c
  rw [h1]
  have h4 : (current_summary current_df).map (·.clicks)
      = (queryGroups current_df).map (fun g => (g.2.map (·.clicks)).sum) := by
    rw [current_summary, List.map_map]
    rfl
  rw [h4, queryGroups_sum]

/-! ## C1: the three-way change-rate rule -/

/-- C1: for every merged row, `calculate_change_rate` follows exactly the
three-way rule: comparison clicks `0` with positive current clicks gives the
`"新規"` ("NEW") sentinel and never a number; comparison clicks `0` with
current clicks `0` gives the numeric `0`; otherwise the rate is the exact
signed value `(current - comparison) / comparison * 100` with no rounding. -/
theorem calculate_change_rate_three_way (m : MergedRow) :
    (m.clicks_comparison = 0 → 0 < m.clicks_current → calculate_change_rate m = ChangeRate.new) ∧
    (m.clicks_comparison = 0 → m.clicks_current = 0 → calculate_change_rate m = ChangeRate.num 0) ∧
    (m.clicks_comparison ≠ 0 →
      calculate_change_rate m
        = ChangeRate.num ((m.clicks_current - m.clicks_comparison) / m.clicks_comparison * 100)) := by
  refine ⟨fun h0 hc => ?_, fun h0 hc => ?_, fun h0 => ?_⟩
  · simp [calculate_change_rate, h0, hc]
  · simp [calculate_change_rate, h0, hc]
  · simp [calculate_change_rate, clicks_change, h0]

theorem calculate_change_rate_three_way_witness :
    calculate_change_rate ⟨"kw1", 7, 10, 1, 2, CellValue.str "p", 0, 0, 0, 0⟩ = ChangeRate.new ∧
    calculate_change_rate ⟨"kw2", 0, 0, 0, 0, CellValue.num 0, 0, 0, 0, 0⟩ = ChangeRate.num 0 ∧
    calculate_change_rate ⟨"kw3", 15, 100, 1, 2, CellValue.str "p", 10, 80, 1, 3⟩
      = ChangeRate.num 50 :=
  ⟨(calculate_change_rate_three_way _).1 rfl (by norm_num),
   (calculate_change_rate_three_way _).2.1 rfl rfl,
   ((calculate_change_rate_three_way ⟨"kw3", 15, 100, 1, 2, CellValue.str "p", 10, 80, 1, 3⟩).2.2
      (by norm_num)).trans (congrArg ChangeRate.num (by norm_num))⟩

/-! ## C9: the division guard for doubly-zero rows -/

/-- C9: a merged row with comparison clicks `0` and current clicks `0` takes
the guarded branch (its rate is the numeric `0`, no division is reached), is
never significant, and is excluded from the `analyze_trends` output for every
`change_threshold`, for every positive `min_clicks` (the UI never passes a
`min_clicks` below `1`; the default is `5`). -/
theorem division_guard_zero_row (change_threshold min_clicks : ℚ) (m : MergedRow)
    (h0 : m.clicks_comparison = 0) (h1 : m.clicks_current = 0) :
    calculate_change_rate m = ChangeRate.num 0 ∧
    (0 < min_clicks → is_significant change_threshold min_clicks m = false) ∧
    (0 < min_clicks → ∀ current_df comparison_df : List SearchRecord,
      m ∉ analyze_trends current_df comparison_df change_threshold min_clicks) := by
  have hrate : calculate_change_rate m = ChangeRate.num 0 := by
    simp [calculate_change_rate, h0, h1]
  have hsig : 0 < min_clicks → is_significant change_threshold min_clicks m = false := by
    intro hmc
    have hcur : ¬ (m.clicks_current ≥ min_clicks) := by
      rw [h1]
      exact not_le.mpr hmc
    simp [is_significant, hrate, hcur]
  refine ⟨hrate, hsig, fun hmc current_df comparison_df hmem => ?_⟩
  rw [analyze_trends] at hmem
  have hmem' := (List.mergeSort_perm _ _).mem_iff.mp hmem
  have htrue := (List.mem_filter.mp hmem').2
  rw [hsig hmc] at htrue
  simp at htrue

theorem division_guard_zero_row_witness :
    calculate_change_rate ⟨"gone", 0, 0, 0, 0, CellValue.num 0, 0, 5, 1, 2⟩ = ChangeRate.num 0 ∧
    is_significant 50 5 ⟨"gone", 0, 0, 0, 0, CellValue.num 0, 0, 5, 1, 2⟩ = false ∧
    (⟨"gone", 0, 0, 0, 0, CellValue.num 0, 0, 5, 1, 2⟩ : MergedRow)
      ∉ analyze_trends [] [] 50 5 := by
  have h := division_guard_zero_row 50 5 ⟨"gone", 0, 0, 0, 0, CellValue.num 0, 0, 5, 1, 2⟩ rfl rfl
  exact ⟨h.1, h.2.1 (by norm_num), h.2.2 (by norm_num) [] []⟩

/-! ## C4: empty input is an error for the aggregation, against the spec -/

/-- C4 (code bug): on an empty GSC response `gsc_to_dataframe` returns
`pd.DataFrame([])`, a frame with no columns, so the very first step of
`analyze_trends` — `current_df.groupby('query')` — raises `KeyError: 'query'`
instead of returning an empty output.  The grouping itself is harmless on an
empty, schema-bearing row list (second conjunct): the error is purely the
schema loss of `pd.DataFrame([])`. -/
theorem empty_input_groupby_raises :
    groupby_query_on_frame (gsc_to_dataframe []) = Except.error "KeyError: query" ∧
    current_summary [] = [] := by
  constructor
  · rfl
  · simp [current_summary, queryGroups]

/-! ## C2: membership in the significant set -/

/-- C2: a merged row is in the `analyze_trends` output exactly when either its
rate is the `"新規"` sentinel and its current clicks reach `min_clicks`, or its
rate is a number `r` with `|r| >= change_threshold` (inclusive boundary) and
its current clicks reach `min_clicks`. -/
theorem significant_membership (current_df comparison_df : List SearchRecord)
    (change_threshold min_clicks : ℚ) (m : MergedRow)
    (hm : m ∈ merged_rows current_df comparison_df) :
    m ∈ analyze_trends current_df comparison_df change_threshold min_clicks ↔
      ((calculate_change_rate m = ChangeRate.new ∧ min_clicks ≤ m.clicks_current) ∨
        (∃ r : ℚ, calculate_change_rate m = ChangeRate.num r ∧
          change_threshold ≤ |r| ∧ min_clicks ≤ m.clicks_current)) := by
  rw [analyze_trends, (List.mergeSort_perm _ _).mem_iff, List.mem_filter]
  rcases h : calculate_change_rate m with _ | r
  · simp [is_significant, h, hm, ge_iff_le]
  · simp [is_significant, h, hm, ge_iff_le]

theorem significant_membership_witness :
    (⟨"kw", 15, 100, 3/20, 3, CellValue.str "p", 10, 80, 1/8, 4⟩ : MergedRow)
      ∈ analyze_trends [⟨"kw", "p", 15, 100, 3/20, 3⟩] [⟨"kw", "p", 10, 80, 1/8, 4⟩] 50 5 := by
  refine (significant_membership _ _ 50 5 _ ?_).mpr
    (Or.inr ⟨50, ?_, by norm_num, by norm_num⟩)
  · norm_num [merged_rows, merge_outer, current_summary, comparison_summary,
      queryGroups, summarizeGroup, summarizeGroupComparison, mergeRowOfCurrent]
  · norm_num [calculate_change_rate, clicks_change]

/-! ## C3: equal-`clicks_change` rows in the significant set -/

/-- C3 (code bug): two distinct queries can both be significant with exactly
the same `clicks_change` (here two rows with change `5`), so the descending
sort on `clicks_change` has genuine ties whose order the source leaves to
`sort_values`'s default `kind='quicksort'` — an algorithm pandas documents as
unstable.  This model's merge sort keeps them in join order. -/
theorem analyze_trends_tied_rows :
    (analyze_trends
        [⟨"a", "pa", 10, 100, 1/10, 2⟩, ⟨"b", "pb", 10, 100, 1/10, 3⟩]
        [⟨"a", "pa", 5, 50, 1/10, 2⟩, ⟨"b", "pb", 5, 50, 1/10, 3⟩] 50 5).map clicks_change
      = [5, 5] := by
  have hcur : current_summary [⟨"a", "pa", 10, 100, 1/10, 2⟩, ⟨"b", "pb", 10, 100, 1/10, 3⟩]
      = [⟨"a", 10, 100, 1/10, 2, "pa"⟩, ⟨"b", 10, 100, 1/10, 3, "pb"⟩] := by
    simp [current_summary, queryGroups, summarizeGroup, List.filter]
  have hcmp : comparison_summary [⟨"a", "pa", 5, 50, 1/10, 2⟩, ⟨"b", "pb", 5, 50, 1/10, 3⟩]
      = [⟨"a", 5, 50, 1/10, 2⟩, ⟨"b", 5, 50, 1/10, 3⟩] := by
    simp [comparison_summary, queryGroups, summarizeGroupComparison, List.filter]
  have hmerge : merge_outer [⟨"a", 10, 100, 1/10, 2, "pa"⟩, ⟨"b", 10, 100, 1/10, 3, "pb"⟩]
      [⟨"a", 5, 50, 1/10, 2⟩, ⟨"b", 5, 50, 1/10, 3⟩]
      = [⟨"a", 10, 100, 1/10, 2, CellValue.str "pa", 5, 50, 1/10, 2⟩,
         ⟨"b", 10, 100, 1/10, 3, CellValue.str "pb", 5, 50, 1/10, 3⟩] := by
    simp [merge_outer, mergeRowOfCurrent, List.find?, List.filter, List.any]
  rw [analyze_trends, merged_rows, hcur, hcmp, hmerge]
  norm_num [is_significant, calculate_change_rate, clicks_change, List.filter, List.mergeSort]

/-! ## Keys of the aggregation and the outer join -/

theorem not_matched_iff (cs : List QuerySummary) (p : ComparisonSummary) :
    ((!(cs.any fun c => c.query == p.query)) = true) ↔ p.query ∉ cs.map QuerySummary.query := by
  rw [Bool.not_eq_true', List.any_eq_false]
  constructor
  · intro h hmem
    rcases List.mem_map.mp hmem with ⟨c, hc, hq⟩
    exact h c hc (beq_iff_eq.mpr hq)
  · intro h c hc hbeq
    exact h (beq_iff_eq.mp hbeq ▸ List.mem_map_of_mem QuerySummary.query hc)

theorem queryGroups_fst_mem (l : List SearchRecord) :
    ∀ g ∈ queryGroups l, g.1 ∈ l := by
  induction l using queryGroups.induct with
  | case1 =>
    intro g hg
    simp [queryGroups] at hg
  | case2 r rs ih =>
    intro g hg
    rw [queryGroups] at hg
    rcases List.mem_cons.mp hg with rfl | hg
    · exact List.mem_cons_self _ _
    · exact List.mem_cons_of_mem r (List.mem_of_mem_filter (ih g hg))

theorem queryGroups_keys_nodup (l : List SearchRecord) :
    ((queryGroups l).map (fun g => g.1.query)).Nodup := by
  induction l using queryGroups.induct with
  | case1 => simp [queryGroups]
  | case2 r rs ih =>
    rw [queryGroups]
    rw [List.map_cons, List.nodup_cons]
    refine ⟨?_, ih⟩
    intro hmem
    rcases List.mem_map.mp hmem with ⟨g, hg, hq⟩
    have hin := queryGroups_fst_mem _ g hg
    have hne := (List.mem_filter.mp hin).2
    rw [Bool.not_eq_true', beq_eq_false_iff_ne] at hne
    exact hne hq

theorem current_summary_keys_nodup (df : List SearchRecord) :
    ((current_summary df).map QuerySummary.query).Nodup := by
  have h : (current_summary df).map QuerySummary.query
      = (queryGroups df).map (fun g => g.1.query) := by
    rw [current_summary, List.map_map]
    rfl
  rw [h]
  exact queryGroups_keys_nodup df

theorem comparison_summary_keys_nodup (df : List SearchRecord) :
    ((comparison_summary df).map ComparisonSummary.query).Nodup := by
  have h : (comparison_summary df).map ComparisonSummary.query
      = (queryGroups df).map (fun g => g.1.query) := by
    rw [comparison_summary, List.map_map]
    rfl
  rw [h]
  exact queryGroups_keys_nodup df

/-! ## C10: the `page` cell of comparison-only rows -/

/-- C10: a merged row whose query is absent from the current-side summaries
has its `page` cell filled by `fillna(0)` with the numeric `0` — not an empty
string or any other textual placeholder — and every comparison-only query
produces such a row. -/
theorem comparison_only_page_filled_zero (cs : List QuerySummary) (ps : List ComparisonSummary) :
    (∀ m ∈ merge_outer cs ps, m.query ∉ cs.map QuerySummary.query → m.page = CellValue.num 0) ∧
    (∀ p ∈ ps, p.query ∉ cs.map QuerySummary.query →
      ∃ m ∈ merge_outer cs ps, m.query = p.query ∧ m.page = CellValue.num 0) := by
  constructor
  · intro m hm hq
    rw [merge_outer, List.mem_append] at hm
    rcases hm with hm | hm
    · rcases List.mem_map.mp hm with ⟨c, hc, rfl⟩
      exfalso
      apply hq
      rw [mergeRowOfCurrent_query]
      exact List.mem_map_of_mem _ hc
    · rcases List.mem_map.mp hm with ⟨p, _, rfl⟩
      rfl
  · intro p hp hq
    refine ⟨mergeRowOfComparisonOnly p, ?_, rfl, rfl⟩
    rw [merge_outer, List.mem_append]
    right
    exact List.mem_map_of_mem _ (List.mem_filter.mpr ⟨hp, (not_matched_iff cs p).mpr hq⟩)

theorem comparison_only_page_filled_zero_witness :
    ∃ m ∈ merge_outer [] [⟨"lost", 5, 50, 1/10, 2⟩],
      m.query = "lost" ∧ m.page = CellValue.num 0 :=
  (comparison_only_page_filled_zero [] [⟨"lost", 5, 50, 1/10, 2⟩]).2
    ⟨"lost", 5, 50, 1/10, 2⟩ (by simp) (by simp)

/-! ## C5: the outer join is a full outer join on `query` -/

/-- C5: for summary sets with distinct queries (which `groupby` guarantees),
the merge produces exactly one row per query of the union of the two key sets
— the output queries are distinct, a query appears in the output iff it
appears on either side, and the output cardinality is `|currentKeys ∪
comparisonKeys|` — and every numeric field missing on one side is `0` in that
row. -/
theorem outer_join_characterization (cs : List QuerySummary) (ps : List ComparisonSummary)
    (hcs : (cs.map QuerySummary.query).Nodup) (hps : (ps.map ComparisonSummary.query).Nodup) :
    ((merge_outer cs ps).map MergedRow.query).Nodup ∧
    (∀ q : String, q ∈ (merge_outer cs ps).map MergedRow.query ↔
      (q ∈ cs.map QuerySummary.query ∨ q ∈ ps.map ComparisonSummary.query)) ∧
    (merge_outer cs ps).length
      = ((cs.map QuerySummary.query).toFinset ∪ (ps.map ComparisonSummary.query).toFinset).card ∧
    (∀ m ∈ merge_outer cs ps,
      (m.query ∉ ps.map ComparisonSummary.query →
        m.clicks_comparison = 0 ∧ m.impressions_comparison = 0 ∧
          m.ctr_comparison = 0 ∧ m.position_comparison = 0) ∧
      (m.query ∉ cs.map QuerySummary.query →
        m.clicks_current = 0 ∧ m.impressions_current = 0 ∧
          m.ctr_current = 0 ∧ m.position_current = 0)) := by
  have hL : (merge_outer cs ps).map MergedRow.query
      = cs.map QuerySummary.query ++
        (ps.filter fun p => !(cs.any fun c => c.query == p.query)).map ComparisonSummary.query := by
    rw [merge_outer, List.map_append, List.map_map, List.map_map]
    congr 1
    apply List.map_congr_left
    intro c _
    exact mergeRowOfCurrent_query ps c
  have hMsub : ((ps.filter fun p => !(cs.any fun c => c.query == p.query)).map
      ComparisonSummary.query).Sublist (ps.map ComparisonSummary.query) :=
    (List.filter_sublist ps).map ComparisonSummary.query
  have hMnodup := hMsub.nodup hps
  have hMmem : ∀ q, (q ∈ (ps.filter fun p => !(cs.any fun c => c.query == p.query)).map
      ComparisonSummary.query) ↔
      (q ∈ ps.map ComparisonSummary.query ∧ q ∉ cs.map QuerySummary.query) := by
    intro q
    constructor
    · intro h
      rcases List.mem_map.mp h with ⟨p, hpf, rfl⟩
      rcases List.mem_filter.mp hpf with ⟨hp, hphi⟩
      exact ⟨List.mem_map_of_mem _ hp, (not_matched_iff cs p).mp hphi⟩
    · rintro ⟨hps', hcs'⟩
      rcases List.mem_map.mp hps' with ⟨p, hp, rfl⟩
      exact List.mem_map_of_mem _ (List.mem_filter.mpr ⟨hp, (not_matched_iff cs p).mpr hcs'⟩)
  have hnodup : ((merge_outer cs ps).map MergedRow.query).Nodup := by
    rw [hL, List.nodup_append]
    refine ⟨hcs, hMnodup, ?_⟩
    intro q hq hq'
    exact ((hMmem q).mp hq').2 hq
  have hmem : ∀ q : String, q ∈ (merge_outer cs ps).map MergedRow.query ↔
      (q ∈ cs.map QuerySummary.query ∨ q ∈ ps.map ComparisonSummary.query) := by
    intro q
    rw [hL, List.mem_append, hMmem]
    by_cases h : q ∈ cs.map QuerySummary.query <;> tauto
  have hlen : (merge_outer cs ps).length
      = ((cs.map QuerySummary.query).toFinset ∪ (ps.map ComparisonSummary.query).toFinset).card := by
    have h1 : (merge_outer cs ps).length = ((merge_outer cs ps).map MergedRow.query).length :=
      (List.length_map _ _).symm
    have h2 : ((merge_outer cs ps).map MergedRow.query).toFinset
        = (cs.map QuerySummary.query).toFinset ∪ (ps.map ComparisonSummary.query).toFinset := by
      ext q
      simp only [List.mem_toFinset, Finset.mem_union]
      exact hmem q
    rw [h1, ← List.toFinset_card_of_nodup hnodup, h2]
  refine ⟨hnodup, hmem, hlen, ?_⟩
  intro m hm
  rw [merge_outer, List.mem_append] at hm
  rcases hm with hm | hm
  · rcases List.mem_map.mp hm with ⟨c, hc, rfl⟩
    constructor
    · intro hq
      apply mergeRowOfCurrent_comparison_fields
      rwa [mergeRowOfCurrent_query] at hq
    · intro hq
      exfalso
      apply hq
      rw [mergeRowOfCurrent_query]
      exact List.mem_map_of_mem _ hc
  · rcases List.mem_map.mp hm with ⟨p, hpf, rfl⟩
    constructor
    · intro hq
      exfalso
      apply hq
      exact List.mem_map_of_mem _ (List.mem_of_mem_filter hpf)
    · intro _
      exact ⟨rfl, rfl, rfl, rfl⟩

theorem outer_join_characterization_witness :
    (merge_outer [⟨"only-current", 7, 70, 1/10, 2, "pc"⟩] [⟨"only-comparison", 5, 50, 1/10, 3⟩]).length
      = (([(⟨"only-current", 7, 70, 1/10, 2, "pc"⟩ : QuerySummary)].map QuerySummary.query).toFinset
          ∪ ([(⟨"only-comparison", 5, 50, 1/10, 3⟩ : ComparisonSummary)].map
              ComparisonSummary.query).toFinset).card :=
  (outer_join_characterization _ _ (by simp) (by simp)).2.2.1

/-! ## C7: the intent-gap view -/

/-- C7: `analyze_search_intent` keeps exactly the `(query, page)` groups with
`impressions >= min_impressions` (inclusive) and mean `ctr` strictly below
`ctr_threshold`, where the filter reads the raw 0-1 `ctr` fraction; the output
is sorted by `impressions` descending; and the `* 100` rescaling of `ctr` is
applied only to the rows that survive the filter. -/
theorem intent_gap_characterization (current_df : List SearchRecord)
    (ctr_threshold min_impressions : ℚ) :
    (∀ r ∈ analyze_search_intent current_df ctr_threshold min_impressions,
      ∃ s ∈ page_summary current_df,
        min_impressions ≤ s.impressions ∧ s.ctr < ctr_threshold ∧
          r = { s with ctr := s.ctr * 100 }) ∧
    (∀ s ∈ page_summary current_df, min_impressions ≤ s.impressions → s.ctr < ctr_threshold →
      { s with ctr := s.ctr * 100 }
        ∈ analyze_search_intent current_df ctr_threshold min_impressions) ∧
    (analyze_search_intent current_df ctr_threshold min_impressions).Pairwise
      (fun a b => b.impressions ≤ a.impressions) := by
  refine ⟨?_, ?_, ?_⟩
  · intro r hr
    rw [analyze_search_intent] at hr
    rcases List.mem_map.mp hr with ⟨s, hs, rfl⟩
    have hs' := (List.mergeSort_perm _ _).mem_iff.mp hs
    rcases List.mem_filter.mp hs' with ⟨hmem, hcond⟩
    rw [Bool.and_eq_true, decide_eq_true_eq, decide_eq_true_eq] at hcond
    exact ⟨s, hmem, hcond.1, hcond.2, rfl⟩
  · intro s hs h1 h2
    rw [analyze_search_intent]
    apply List.mem_map_of_mem
    apply (List.mergeSort_perm _ _).mem_iff.mpr
    rw [List.mem_filter]
    refine ⟨hs, ?_⟩
    rw [Bool.and_eq_true, decide_eq_true_eq, decide_eq_true_eq]
    exact ⟨h1, h2⟩
  · rw [analyze_search_intent, List.pairwise_map]
    have hp := @List.sorted_mergeSort _
      (fun a b : PageSummary => decide (a.impressions ≥ b.impressions))
      (fun a b c hab hbc => by
        rw [decide_eq_true_eq] at *
        exact le_trans hbc hab)
      (fun a b => by
        rcases le_total a.impressions b.impressions with hle | hle <;> simp [ge_iff_le, hle])
      ((page_summary current_df).filter
        (fun r => decide (r.impressions ≥ min_impressions) && decide (r.ctr < ctr_threshold)))
    exact hp.imp (fun {a b} hab => by rw [decide_eq_true_eq] at hab; exact hab)

theorem intent_gap_characterization_witness :
    ({ query := "k", page := "p", clicks := 5, impressions := 100, ctr := 499/10000 * 100,
        position := 2 } : PageSummary)
      ∈ analyze_search_intent [⟨"k", "p", 5, 100, 499/10000, 2⟩] (5/100) 100 ∧
    analyze_search_intent [⟨"k", "p", 5, 100, 5/100, 2⟩] (5/100) 100 = [] := by
  constructor
  · have hs : (⟨"k", "p", 5, 100, 499/10000, 2⟩ : PageSummary)
        ∈ page_summary [⟨"k", "p", 5, 100, 499/10000, 2⟩] := by
      simp [page_summary, queryPageGroups, summarizeGroupPage]
    exact (intent_gap_characterization [⟨"k", "p", 5, 100, 499/10000, 2⟩] (5/100) 100).2.1
      ⟨"k", "p", 5, 100, 499/10000, 2⟩ hs (by norm_num) (by norm_num)
  · simp [analyze_search_intent, page_summary, queryPageGroups, summarizeGroupPage,
      List.filter, List.mergeSort]

/-! ## C8: the conversion view -/

theorem analyze_conversion_of_ne_nil (ga4_df : List AnalyticsRecord) (h : ga4_df ≠ []) :
    analyze_conversion ga4_df
      = (ga4_df.filter fun r => decide (r.sessions ≥ (10 : ℤ))).mergeSort
          (fun a b => decide (a.cvr ≥ b.cvr)) := by
  rw [analyze_conversion]
  simp [List.isEmpty_iff, h]

/-- C8: `analyze_conversion` keeps exactly the records with `sessions >= 10`
(a record with `sessions = 9` is excluded whatever its conversions; one with
`sessions = 10` stays even with `0` conversions), sorted by `cvr` descending,
where `cvr` was computed by `ga4_to_dataframe` as `conversions / sessions`
when `sessions > 0` and `0` otherwise; empty input gives an empty result, not
an error. -/
theorem conversion_ranking (ga4_df : List AnalyticsRecord) :
    (∀ r : AnalyticsRecord, r ∈ analyze_conversion ga4_df ↔
      (r ∈ ga4_df ∧ (10 : ℤ) ≤ r.sessions)) ∧
    (analyze_conversion ga4_df).Pairwise (fun a b => b.cvr ≤ a.cvr) ∧
    (∀ responseRows : List Ga4Row, ∀ a ∈ ga4_to_dataframe responseRows,
      a.cvr = if 0 < a.sessions then (a.conversions : ℚ) / (a.sessions : ℚ) else 0) := by
  refine ⟨?_, ?_, ?_⟩
  · intro r
    by_cases h : ga4_df = []
    · subst h
      simp [analyze_conversion]
    · rw [analyze_conversion_of_ne_nil ga4_df h,
        (List.mergeSort_perm _ _).mem_iff, List.mem_filter]
      simp [ge_iff_le]
  · by_cases h : ga4_df = []
    · subst h
      simp [analyze_conversion]
    · rw [analyze_conversion_of_ne_nil ga4_df h]
      have hp := @List.sorted_mergeSort _
        (fun a b : AnalyticsRecord => decide (a.cvr ≥ b.cvr))
        (fun a b c hab hbc => by
          rw [decide_eq_true_eq] at *
          exact le_trans hbc hab)
        (fun a b => by rcases le_total a.cvr b.cvr with hle | hle <;> simp [ge_iff_le, hle])
        (ga4_df.filter fun r => decide (r.sessions ≥ (10 : ℤ)))
      exact hp.imp (fun {a b} hab => by rw [decide_eq_true_eq] at hab; exact hab)
  · intro responseRows a ha
    rw [ga4_to_dataframe] at ha
    rcases List.mem_map.mp ha with ⟨r, _, rfl⟩
    rfl

theorem conversion_ranking_witness :
    (⟨"/q", "google / organic", 10, 10, 0, 0, 0, 0⟩ : AnalyticsRecord)
      ∈ analyze_conversion
        [⟨"/p", "google / organic", 9, 9, 0, 0, 9, 1⟩,
         ⟨"/q", "google / organic", 10, 10, 0, 0, 0, 0⟩] ∧
    (⟨"/p", "google / organic", 9, 9, 0, 0, 9, 1⟩ : AnalyticsRecord)
      ∉ analyze_conversion
        [⟨"/p", "google / organic", 9, 9, 0, 0, 9, 1⟩,
         ⟨"/q", "google / organic", 10, 10, 0, 0, 0, 0⟩] ∧
    ga4_to_dataframe [⟨"/p", "google / organic", 9, 9, 0, 0, 9⟩]
      = [⟨"/p", "google / organic", 9, 9, 0, 0, 9, 1⟩] := by
  refine ⟨((conversion_ranking _).1 _).mpr ⟨by simp, by norm_num⟩, fun hmem => ?_, ?_⟩
  · have h10 := (((conversion_ranking _).1 _).mp hmem).2
    norm_num at h10
  · simp [ga4_to_dataframe, List.filter, strContains, strToLower, charsContain,
      List.isPrefixOf]
